import Mathlib

/-!
Shallow embedding of the PancakeSwap v2 pools tag module (src/main.mts) and
proofs about it.

The module fetches liquidity-pool pairs from a GraphQL endpoint page by page
(1000 pairs per page, cursor = timestamp of the last raw pair of the previous
page), validates the token name/symbol text fields, and maps each valid pair
to a contract-tag record.  Strings are modelled by Lean `String`;  JavaScript
string primitives that Lean implements by well-founded recursion (trim,
replace) are re-implemented structurally over `List Char` so that every
definition evaluates inside the kernel.  The network is modelled as a function
from the cursor timestamp to the transport outcome of one round-trip, and the
`while (isMore)` loop as fuel-indexed tail recursion (`none` = fuel exhausted;
the source loop has no intrinsic termination bound).
-/

/-! ## JavaScript string primitives, modelled structurally -/

/-- Characters removed by `String.prototype.trim` (ASCII subset: space, tab,
newline, carriage return; the exotic Unicode whitespace JS also strips does not
occur in this development). -/
def isJsWhitespaceChar (c : Char) : Bool :=
  c == ' ' || c == '\t' || c == '\n' || c == '\r'

/-- `text.trim()` on the character list: drop whitespace from both ends. -/
def trimChars (l : List Char) : List Char :=
  ((l.dropWhile isJsWhitespaceChar).reverse.dropWhile isJsWhitespaceChar).reverse

/-- Matcher for the regex fragment `[^>]*>`: after an opening `<` the regex
consumes non-`>` characters until a closing `>`.  It succeeds exactly when a
`>` occurs somewhere in the remainder. -/
def closesTag : List Char → Bool
  | [] => false
  | c :: cs => if c == '>' then true else closesTag cs

/-- Matcher for `/<[^>]*>/.test(text)` from `containsInvalidValue`: the regex
matches somewhere in the character list. -/
def regexAngleTag : List Char → Bool
  | [] => false
  | c :: cs => (c == '<' && closesTag cs) || regexAngleTag cs

/-- `containsInvalidValue` from src/main.mts: a text value is invalid when it
matches `/<[^>]*>/` or trims to the empty string. -/
def containsInvalidValue (text : String) : Bool :=
  let containsHtml := regexAngleTag text.toList
  let isEmpty := trimChars text.toList == []
  isEmpty || containsHtml

/-- The spec names the accepting side of the validator `isValid`; it is the
negation of `containsInvalidValue`. -/
def isValid (text : String) : Bool :=
  !containsInvalidValue text

/-- `truncateString` from src/main.mts: `text.substring(0, maxLength - 3)`
followed by an ellipsis when `text.length > maxLength`, the text unchanged
otherwise. -/
def truncateString (text : String) (maxLength : Nat) : String :=
  if text.length > maxLength then String.mk (text.toList.take (maxLength - 3)) ++ "..."
  else text

/-! ## Data model -/

/-- The `PoolToken` interface. -/
structure PoolToken where
  id : String
  name : String
  symbol : String
deriving DecidableEq

/-- The `Pair` interface.  Timestamps are unix seconds; the source treats them
as integers (it applies `parseInt(x.toString(), 10)`, the identity on them), so
they are modelled as `Nat`. -/
structure Pair where
  id : String
  timestamp : Nat
  token0 : PoolToken
  token1 : PoolToken
deriving DecidableEq

/-- One element of the `errors` list of a GraphQL response. -/
structure GqlError where
  message : String
deriving DecidableEq

/-- The `GraphQLData` interface; `pairs` is optional because `fetchData`
explicitly guards against the field being absent at runtime. -/
structure GraphQLData where
  pairs : Option (List Pair)
deriving DecidableEq

/-- The `GraphQLResponse` interface: both fields optional, as in the source.
An `errors` field that is present is truthy in JavaScript even when the list
is empty, which the `Option` faithfully captures. -/
structure GraphQLResponse where
  data? : Option GraphQLData
  errors? : Option (List GqlError)
deriving DecidableEq

/-- The transport-level view of one fetch round-trip that `fetchData`
inspects: the `ok` flag and `status` of the HTTP response and its parsed JSON
body. -/
structure HttpResponse where
  ok : Bool
  status : Nat
  body : GraphQLResponse
deriving DecidableEq

/-- A JavaScript value that can be thrown and caught.  Every value the module
itself throws is an `Error` instance carrying a string message (`errorObj`);
`nonError` stands for any thrown value without a string `message` field, the
case the `isError` type guard rejects. -/
inductive JsValue where
  | errorObj (message : String)
  | nonError
deriving DecidableEq

/-- The `isError` type guard from src/main.mts: does the thrown value carry a
string `message` field? -/
def isError : JsValue → Bool
  | .errorObj _ => true
  | .nonError => false

/-- String conversion of an `Error` instance, as used by the template literal
in the catch block: `String(error)` is `"Error: " + message`, or just
`"Error"` when the message is empty. -/
def jsErrorToString (message : String) : String :=
  if message == "" then "Error" else "Error: " ++ message

/-- The output `ContractTag` record. -/
structure ContractTag where
  contractAddress : String
  publicNameTag : String
  projectName : String
  uiWebsiteLink : String
  publicNote : String
deriving DecidableEq

/-! ## Chain registry and URL resolution -/

/-- `SUBGRAPH_URLS` from src/main.mts, as an association list in the source's
insertion order (JavaScript `Object.keys` enumerates these integer-like keys
in ascending numeric order, which coincides with the insertion order here). -/
def SUBGRAPH_URLS : List (String × String) :=
  [("1", "https://gateway.thegraph.com/api/[api-key]/subgraphs/id/9opY17WnEPD4REcC43yHycQthSeUMQE26wyoeMjZTLEx"),
   ("324", "https://gateway.thegraph.com/api/[api-key]/subgraphs/id/6dU6WwEz22YacyzbTbSa3CECCmaD8G7oQ8aw6MYd5VKU"),
   ("1101", "https://gateway.thegraph.com/api/[api-key]/subgraphs/id/37WmH5kBu6QQytRpMwLJMGPRbXvHgpuZsWqswW4Finc2"),
   ("8453", "https://gateway.thegraph.com/api/[api-key]/subgraphs/id/2NjL7L4CmQaGJSacM43ofmH6ARf6gJoBeBaJtz9eWAQ9"),
   ("42161", "https://gateway.thegraph.com/api/[api-key]/subgraphs/id/EsL7geTRcA3LaLLM9EcMFzYbUgnvf8RixoEEGErrodB3"),
   ("59144", "https://gateway.thegraph.com/api/[api-key]/subgraphs/id/Eti2Z5zVEdARnuUzjCbv4qcimTLysAizsqH3s6cBfPjB")]

/-- `SUBGRAPH_URLS[chainId]`: registry lookup. -/
def lookupSubgraph (chainId : String) : Option String :=
  (SUBGRAPH_URLS.find? (fun kv => kv.1 == chainId)).map (fun kv => kv.2)

/-- `array.join(", ")` on the registry keys. -/
def joinWithCommaSpace : List String → String
  | [] => ""
  | [s] => s
  | s :: rest => s ++ ", " ++ joinWithCommaSpace rest

/-- `Object.keys(SUBGRAPH_URLS).join(", ")`. -/
def supportedChainIds : String :=
  joinWithCommaSpace (SUBGRAPH_URLS.map (fun kv => kv.1))

/-- The message of the error thrown by `prepareUrl` for an unsupported or
non-numeric chain identifier. -/
def unsupportedChainMessage (chainId : String) : String :=
  "Unsupported or invalid Chain ID provided: " ++ chainId ++
    ". Only the following values are accepted: " ++ supportedChainIds

/-- Whether a trimmed, nonempty character list is a decimal numeric literal
accepted by JavaScript `Number()`: an optional sign, digits, an optional
fractional part, and at least one digit overall.  (Exponent and radix-prefixed
forms are not modelled; no identifier this module compares against uses
them.) -/
def isDecimalNumberChars (l : List Char) : Bool :=
  let l := match l with
    | '+' :: rest => rest
    | '-' :: rest => rest
    | _ => l
  let ds := l.takeWhile Char.isDigit
  match l.dropWhile Char.isDigit with
  | [] => !ds.isEmpty
  | '.' :: fs => (!ds.isEmpty || !fs.isEmpty) && fs.all Char.isDigit
  | _ => false

/-- Model of the JavaScript test `isNaN(Number(s))`: `Number` of a string that
trims to empty is `0` (not NaN); a trimmed decimal numeric literal converts to
a number; anything else converts to NaN. -/
def jsNumberIsNaN (s : String) : Bool :=
  let t := trimChars s.toList
  if t.isEmpty then false else !isDecimalNumberChars t

/-- Characters `encodeURIComponent` leaves unescaped: alphanumerics and
`- _ . ! ~ * ' ( )` (the apostrophe written as `Char.ofNat 39`). -/
def uriUnreservedChar (c : Char) : Bool :=
  c.isAlphanum || c == '-' || c == '_' || c == '.' || c == '!' || c == '~' ||
    c == '*' || c == Char.ofNat 39 || c == '(' || c == ')'

/-- Upper-case hexadecimal digit for a value below 16. -/
def encodeHexDigit (n : Nat) : Char :=
  if n < 10 then Char.ofNat (48 + n) else Char.ofNat (55 + n)

/-- Model of JavaScript `encodeURIComponent`, restricted to single-byte
(ASCII) code points: every reserved character becomes `%` followed by two
upper-case hex digits of its code. -/
def encodeURIComponent (s : String) : String :=
  String.mk ((s.toList.map (fun c =>
    if uriUnreservedChar c then [c]
    else ['%', encodeHexDigit (c.toNat / 16 % 16), encodeHexDigit (c.toNat % 16)])).flatten)

/-- Is `pattern` a prefix of the list? -/
def isPrefixOfChars : List Char → List Char → Bool
  | [], _ => true
  | _ :: _, [] => false
  | p :: ps, c :: cs => p == c && isPrefixOfChars ps cs

/-- Replace the first occurrence of `pattern` (JavaScript
`String.prototype.replace` with a string pattern replaces only the first
occurrence). -/
def replaceFirstChars (pattern replacement : List Char) : List Char → List Char
  | [] => []
  | c :: cs =>
    if isPrefixOfChars pattern (c :: cs) then replacement ++ (c :: cs).drop pattern.length
    else c :: replaceFirstChars pattern replacement cs

/-- `s.replace(pattern, replacement)` for a string pattern. -/
def jsReplaceFirst (s pattern replacement : String) : String :=
  String.mk (replaceFirstChars pattern.toList replacement.toList s.toList)

/-- `prepareUrl` from src/main.mts: throws (modelled by `Except.error` carrying
the message) when the chain identifier is missing from the registry or
non-numeric, and otherwise substitutes the percent-encoded API key for the
`[api-key]` placeholder. -/
def prepareUrl (chainId apiKey : String) : Except String String :=
  match lookupSubgraph chainId with
  | none => .error (unsupportedChainMessage chainId)
  | some url =>
    if jsNumberIsNaN chainId then .error (unsupportedChainMessage chainId)
    else .ok (jsReplaceFirst url "[api-key]" (encodeURIComponent apiKey))

/-! ## Fetcher -/

/-- `fetchData` from src/main.mts.  The network is abstracted as a function
`net` from the cursor timestamp to the outcome of the awaited round-trip: a
rejection with some thrown value, or an `HttpResponse` (status line plus parsed
JSON body).  The checks appear in source order: transport rejection
propagates; a non-ok status throws `HTTP error: <status>`; a present `errors`
field (even an empty list) throws the aggregate GraphQL failure; an absent
`data` or `data.pairs` throws `No pairs data found.`; otherwise the raw pairs
are returned. -/
def fetchData (net : Nat → Except JsValue HttpResponse) (lastTimestamp : Nat) :
    Except JsValue (List Pair) :=
  match net lastTimestamp with
  | .error e => .error e
  | .ok response =>
    if !response.ok then .error (.errorObj ("HTTP error: " ++ toString response.status))
    else
      match response.body.errors? with
      | some _ => .error (.errorObj "GraphQL errors occurred: see logs for details.")
      | none =>
        match response.body.data? with
        | none => .error (.errorObj "No pairs data found.")
        | some d =>
          match d.pairs with
          | none => .error (.errorObj "No pairs data found.")
          | some pairs => .ok pairs

/-! ## Transformer / validator -/

/-- The rejection test of `transformPairsToTags`:
`token0Invalid || token1Invalid`, each token invalid when its name or symbol
contains an invalid value. -/
def pairRejected (pair : Pair) : Bool :=
  (containsInvalidValue pair.token0.name || containsInvalidValue pair.token0.symbol) ||
    (containsInvalidValue pair.token1.name || containsInvalidValue pair.token1.symbol)

/-- The body of the `validPairs.map` call in `transformPairsToTags`:
one output record per valid pair (`maxSymbolsLength` is the literal 45 of the
source). -/
def pairToTag (chainId : String) (pair : Pair) : ContractTag :=
  let symbolsText := pair.token0.symbol ++ "/" ++ pair.token1.symbol
  let truncatedSymbolsText := truncateString symbolsText 45
  { contractAddress := "eip155:" ++ chainId ++ ":" ++ pair.id
    publicNameTag := truncatedSymbolsText ++ " Pool"
    projectName := "PancakeSwap v2"
    uiWebsiteLink := "https://pancakeswap.finance/"
    publicNote := "The liquidity pool contract on PancakeSwap v2 for the " ++
      pair.token0.name ++ " (" ++ pair.token0.symbol ++ ") / " ++
      pair.token1.name ++ " (" ++ pair.token1.symbol ++ ") pair." }

/-- `transformPairsToTags` from src/main.mts: the `pairs.forEach` push loop
that collects `validPairs` (rejected pairs only feed the diagnostic log, which
is not modelled), followed by `validPairs.map`. -/
def transformPairsToTags (chainId : String) (pairs : List Pair) : List ContractTag :=
  let validPairs := pairs.foldl (fun acc pair => if pairRejected pair then acc else acc ++ [pair]) []
  validPairs.map (pairToTag chainId)

/-! ## Orchestrator -/

/-- `pairs[pairs.length - 1].timestamp` with a default for the empty list; the
loop only consults it when the page holds exactly 1000 pairs.  The source
wraps the access in `parseInt(x.toString(), 10)`, the identity on these
natural-number timestamps. -/
def lastPairTimestamp (pairs : List Pair) (dflt : Nat) : Nat :=
  match pairs.getLast? with
  | some p => p.timestamp
  | none => dflt

/-- The catch block of `returnTags`: a thrown value with a string message
field (the `isError` guard) is rewrapped as
`new Error("Failed fetching data: " + String(error))`; anything else becomes
the fixed unknown-error message. -/
def wrapLoopError : JsValue → JsValue
  | .errorObj m => .errorObj ("Failed fetching data: " ++ jsErrorToString m)
  | .nonError => .errorObj "An unknown error occurred during fetch operation."

/-- The `while (isMore)` loop of `returnTags`, as fuel-indexed tail recursion.
`c` is `lastTimestamp`, `acc` is `allTags`; `tr` additionally records, for
each completed fetch, the cursor passed to it and the raw page it returned
(pure instrumentation — the source keeps no such list).  `none` means the fuel
ran out before the loop finished; the source loop has no intrinsic bound. -/
def returnTagsLoop (chainId : String) (net : Nat → Except JsValue HttpResponse) :
    Nat → Nat → List ContractTag → List (Nat × List Pair) →
    Option (Except JsValue (List ContractTag × List (Nat × List Pair)))
  | 0, _, _, _ => none
  | fuel + 1, c, acc, tr =>
    match fetchData net c with
    | .error e => some (.error (wrapLoopError e))
    | .ok pairs =>
      let acc := acc ++ transformPairsToTags chainId pairs
      let tr := tr ++ [(c, pairs)]
      if pairs.length = 1000 then
        returnTagsLoop chainId net fuel (lastPairTimestamp pairs c) acc tr
      else
        some (.ok (acc, tr))

/-- `TagService.returnTags` from src/main.mts: `prepareUrl` runs before the
loop and outside the try/catch, so its error propagates as thrown — unwrapped;
then the loop starts with cursor 0 and an empty accumulator.  The network
function stands for `fetch` at the prepared URL. -/
def returnTags (chainId apiKey : String) (net : Nat → Except JsValue HttpResponse)
    (fuel : Nat) : Option (Except JsValue (List ContractTag × List (Nat × List Pair))) :=
  match prepareUrl chainId apiKey with
  | .error m => some (.error (.errorObj m))
  | .ok _ => returnTagsLoop chainId net fuel 0 [] []

/-! ## Trace predicates and helper lemmas -/

/-- The tags contributed by the pages of a trace, in order. -/
def tagsOfTrace (chainId : String) (tl : List (Nat × List Pair)) : List ContractTag :=
  (tl.map (fun e => transformPairsToTags chainId e.2)).flatten

/-- Shape of the instrumentation trace of a completed loop run started at
cursor `c`: at least one fetch; every fetch but the last returned exactly 1000
pairs; the last returned some other count; each later fetch uses the timestamp
of the last raw pair of the page before it. -/
def goodTrace : Nat → List (Nat × List Pair) → Prop
  | _, [] => False
  | c, [(c1, ps)] => c1 = c ∧ ps.length ≠ 1000
  | c, (c1, ps) :: e :: rest =>
      c1 = c ∧ ps.length = 1000 ∧ goodTrace (lastPairTimestamp ps c) (e :: rest)

/-- Every page of the trace except the last holds exactly 1000 pairs, and the
last page does not: the loop continued exactly after full pages. -/
def continuesIff1000 : List (Nat × List Pair) → Prop
  | [] => True
  | [(_, ps)] => ps.length ≠ 1000
  | (_, ps) :: e :: rest => ps.length = 1000 ∧ continuesIff1000 (e :: rest)

/-- Each fetch after the first was issued at the timestamp of the last raw
pair of the page the previous fetch returned. -/
def cursorsChained : List (Nat × List Pair) → Prop
  | (c1, ps1) :: (c2, ps2) :: rest =>
      c2 = lastPairTimestamp ps1 c1 ∧ cursorsChained ((c2, ps2) :: rest)
  | _ => True

/-! ## Concrete fixtures used to instantiate the theorems -/

/-- A pair whose four text fields all pass validation. -/
def sampleValidPair : Pair :=
  ⟨"0xgood", 5, ⟨"0xa", "Alpha", "AL"⟩, ⟨"0xb", "Beta", "BE"⟩⟩

/-- A pair rejected because token0's name matches the tag regex, although
token1 is entirely valid. -/
def sampleInvalidPair : Pair :=
  ⟨"0xbad", 6, ⟨"0xc", "<script>", "SC"⟩, ⟨"0xd", "Gamma", "GA"⟩⟩

/-- A full page: exactly 1000 raw pairs, all valid, last timestamp 7. -/
def samplePage : List Pair :=
  List.replicate 1000 ⟨"0xp", 7, ⟨"0xa", "Alpha", "AL"⟩, ⟨"0xb", "Beta", "BE"⟩⟩

/-- A network whose every round-trip succeeds with an empty page. -/
def emptyPageNet : Nat → Except JsValue HttpResponse :=
  fun _ => .ok ⟨true, 200, ⟨some ⟨some []⟩, none⟩⟩

/-- A network returning the full `samplePage` on every round-trip. -/
def fullPageNet : Nat → Except JsValue HttpResponse :=
  fun _ => .ok ⟨true, 200, ⟨some ⟨some samplePage⟩, none⟩⟩

/-- A network whose first round-trip (cursor 0) yields the full `samplePage`
and whose later round-trips fail at the transport level with status 500. -/
def failingSecondNet : Nat → Except JsValue HttpResponse :=
  fun c =>
    if c = 0 then .ok ⟨true, 200, ⟨some ⟨some samplePage⟩, none⟩⟩
    else .ok ⟨false, 500, ⟨none, none⟩⟩

/-- A network whose every round-trip rejects with a value that carries no
string message field. -/
def nonErrorNet : Nat → Except JsValue HttpResponse :=
  fun _ => .error .nonError

/-- The registry template for chain identifier 1. -/
def mainnetUrl : String :=
  "https://gateway.thegraph.com/api/[api-key]/subgraphs/id/9opY17WnEPD4REcC43yHycQthSeUMQE26wyoeMjZTLEx"

/-! ## Characterization of the tag regex -/

theorem closesTag_iff : ∀ l : List Char, closesTag l = true ↔ ∃ a b, l = a ++ '>' :: b := by
  intro l
  induction l with
  | nil => simp [closesTag]
  | cons c cs ih =>
    by_cases hc : c = '>'
    · subst hc
      simp only [closesTag, beq_self_eq_true, if_true, true_iff]
      exact ⟨[], cs, rfl⟩
    · rw [closesTag, if_neg (by simpa using hc), ih]
      constructor
      · rintro ⟨a, b, rfl⟩
        exact ⟨c :: a, b, rfl⟩
      · rintro ⟨a, b, h⟩
        cases a with
        | nil => simp at h; exact absurd h.1 hc
        | cons x a =>
          rw [List.cons_append] at h
          obtain ⟨-, h2⟩ := List.cons.inj h
          exact ⟨a, b, h2⟩

theorem regexAngleTag_iff : ∀ l : List Char,
    regexAngleTag l = true ↔ ∃ p m r, l = p ++ '<' :: (m ++ '>' :: r) := by
  intro l
  induction l with
  | nil => simp [regexAngleTag]
  | cons c cs ih =>
    rw [regexAngleTag, Bool.or_eq_true, Bool.and_eq_true, ih]
    constructor
    · rintro (⟨hc, hclose⟩ | ⟨p, m, r, rfl⟩)
      · obtain ⟨a, b, rfl⟩ := (closesTag_iff cs).1 hclose
        exact ⟨[], a, b, by simp [beq_iff_eq.1 hc]⟩
      · exact ⟨c :: p, m, r, rfl⟩
    · rintro ⟨p, m, r, h⟩
      cases p with
      | nil =>
        simp only [List.nil_append] at h
        obtain ⟨h1, h2⟩ := List.cons.inj h
        left
        exact ⟨by simp [h1], (closesTag_iff cs).2 ⟨m, r, h2⟩⟩
      | cons x p =>
        rw [List.cons_append] at h
        obtain ⟨-, h2⟩ := List.cons.inj h
        right
        exact ⟨p, m, r, h2⟩

/-! ## Validator and transformer basics -/

theorem pairRejected_false_iff (pair : Pair) :
    pairRejected pair = false ↔
      containsInvalidValue pair.token0.name = false ∧
      containsInvalidValue pair.token0.symbol = false ∧
      containsInvalidValue pair.token1.name = false ∧
      containsInvalidValue pair.token1.symbol = false := by
  simp [pairRejected]
  tauto

theorem foldl_push_filter (pairs : List Pair) :
    ∀ acc : List Pair,
      pairs.foldl (fun acc pair => if pairRejected pair then acc else acc ++ [pair]) acc =
        acc ++ pairs.filter (fun pair => !pairRejected pair) := by
  induction pairs with
  | nil => intro acc; simp
  | cons p ps ih =>
    intro acc
    by_cases hp : pairRejected p
    · simp [List.foldl_cons, hp, ih, List.filter_cons]
    · simp [List.foldl_cons, hp, ih, List.filter_cons]

theorem transformPairsToTags_eq (chainId : String) (pairs : List Pair) :
    transformPairsToTags chainId pairs =
      (pairs.filter (fun pair => !pairRejected pair)).map (pairToTag chainId) := by
  simp only [transformPairsToTags]
  rw [foldl_push_filter]
  simp

theorem goodTrace_ne_nil (c : Nat) (tl : List (Nat × List Pair)) (h : goodTrace c tl) :
    tl ≠ [] := by
  cases tl with
  | nil => exact h.elim
  | cons e rest => exact List.cons_ne_nil e rest

theorem goodTrace_head (c c1 : Nat) (ps : List Pair) (rest : List (Nat × List Pair))
    (h : goodTrace c ((c1, ps) :: rest)) : c1 = c := by
  cases rest with
  | nil => exact h.1
  | cons e rest => exact h.1

theorem goodTrace_continues : ∀ (c : Nat) (tl : List (Nat × List Pair)),
    goodTrace c tl → continuesIff1000 tl
  | _, [], h => h.elim
  | _, [(_, _)], h => h.2
  | c, (_, ps1) :: e :: rest, h =>
      ⟨h.2.1, goodTrace_continues (lastPairTimestamp ps1 c) (e :: rest) h.2.2⟩

theorem goodTrace_chained : ∀ (c : Nat) (tl : List (Nat × List Pair)),
    goodTrace c tl → cursorsChained tl
  | _, [], _ => trivial
  | _, [(_, _)], _ => trivial
  | c, (c1, ps1) :: (c2, ps2) :: rest, h => by
    obtain ⟨hc1, -, hg⟩ := h
    refine ⟨?_, goodTrace_chained _ _ hg⟩
    have hc2 : c2 = lastPairTimestamp ps1 c := goodTrace_head _ _ _ _ hg
    rw [hc2, hc1]

/-- Inversion for successful loop runs: the final trace extends the starting
trace by a `goodTrace` tail, and the final tags extend the starting
accumulator by exactly the tags of that tail. -/
theorem returnTagsLoop_ok (chainId : String) (net : Nat → Except JsValue HttpResponse) :
    ∀ (fuel c : Nat) (acc : List ContractTag) (tr : List (Nat × List Pair))
      (tags : List ContractTag) (trace : List (Nat × List Pair)),
      returnTagsLoop chainId net fuel c acc tr = some (.ok (tags, trace)) →
      ∃ tl, trace = tr ++ tl ∧ goodTrace c tl ∧ tags = acc ++ tagsOfTrace chainId tl := by
  intro fuel
  induction fuel with
  | zero => intro c acc tr tags trace h; simp [returnTagsLoop] at h
  | succ fuel ih =>
    intro c acc tr tags trace h
    rw [returnTagsLoop] at h
    cases hf : fetchData net c with
    | error e => rw [hf] at h; simp at h
    | ok pairs =>
      rw [hf] at h
      simp only at h
      by_cases hl : pairs.length = 1000
      · rw [if_pos hl] at h
        obtain ⟨tl, htr, hg, htags⟩ := ih _ _ _ _ _ h
        refine ⟨(c, pairs) :: tl, ?_, ?_, ?_⟩
        · rw [htr]; simp
        · cases tl with
          | nil => exact absurd rfl (goodTrace_ne_nil _ _ hg)
          | cons e rest => exact ⟨rfl, hl, hg⟩
        · rw [htags]; simp [tagsOfTrace]
      · rw [if_neg hl] at h
        simp only [Option.some.injEq, Except.ok.injEq, Prod.mk.injEq] at h
        refine ⟨[(c, pairs)], h.2.symm, ⟨rfl, hl⟩, ?_⟩
        rw [← h.1]
        simp [tagsOfTrace]

/-- Inversion for failed loop runs: the error is the catch-block rewrapping of
a value thrown by some fetch. -/
theorem returnTagsLoop_error (chainId : String) (net : Nat → Except JsValue HttpResponse) :
    ∀ (fuel c : Nat) (acc : List ContractTag) (tr : List (Nat × List Pair)) (e : JsValue),
      returnTagsLoop chainId net fuel c acc tr = some (.error e) →
      ∃ cursor e0, fetchData net cursor = .error e0 ∧ e = wrapLoopError e0 := by
  intro fuel
  induction fuel with
  | zero => intro c acc tr e h; simp [returnTagsLoop] at h
  | succ fuel ih =>
    intro c acc tr e h
    rw [returnTagsLoop] at h
    cases hf : fetchData net c with
    | error e0 =>
      rw [hf] at h
      simp only [Option.some.injEq, Except.error.injEq] at h
      exact ⟨c, e0, hf, h.symm⟩
    | ok pairs =>
      rw [hf] at h
      simp only at h
      by_cases hl : pairs.length = 1000
      · rw [if_pos hl] at h
        exact ih _ _ _ _ h
      · rw [if_neg hl] at h
        simp at h

/-! ## Claim theorems -/

/-- C1 counterexample: the claim asserts `isValid "A<B" = false`, but the
regex `/<[^>]*>/` needs a closing `>` to match, so the code treats `"A<B"` as
valid. -/
theorem c1_validator_counterexample : ¬ (isValid "A<B" = false) := by decide

/-- C1 (amended): the validator classifies a text value as invalid exactly
when the trimmed value is empty or the value contains a tag-like substring —
an `<` later followed by a `>`; in particular `isValid "USD Coin" = true`,
`isValid "" = false`, `isValid "  " = false`, `isValid "<script>" = false`,
and `isValid "A<B" = true` (no closing `>`, hence no tag-like substring). -/
theorem c1_validator_characterization (text : String) :
    (isValid text = false ↔
      (trimChars text.toList = [] ∨
        ∃ p m r, text.toList = p ++ '<' :: (m ++ '>' :: r))) ∧
    isValid "USD Coin" = true ∧
    isValid "" = false ∧
    isValid "  " = false ∧
    isValid "<script>" = false ∧
    isValid "A<B" = true := by
  refine ⟨?_, by decide, by decide, by decide, by decide, by decide⟩
  rw [show isValid text = !(trimChars text.toList == [] || regexAngleTag text.toList) from rfl]
  simp [Bool.or_eq_true, beq_iff_eq, regexAngleTag_iff]
  tauto

/-- C3: truncation to the 45-character budget leaves strings of length at
most 45 unchanged, and maps every longer string to the first 42 characters
followed by an ellipsis, 45 characters in total. -/
theorem c3_truncation_budget (text : String) :
    (text.length ≤ 45 → truncateString text 45 = text) ∧
    (45 < text.length →
      truncateString text 45 = String.mk (text.toList.take 42) ++ "..." ∧
      (truncateString text 45).length = 45) := by
  constructor
  · intro h
    rw [truncateString, if_neg (by omega)]
  · intro h
    have he : truncateString text 45 = String.mk (text.toList.take 42) ++ "..." := by
      rw [truncateString, if_pos (by omega)]
    refine ⟨he, ?_⟩
    rw [he, String.length_append]
    have h42 : (String.mk (text.toList.take 42)).length = 42 := by
      show (text.toList.take 42).length = 42
      rw [List.length_take]
      have ht : text.toList.length = text.length := rfl
      omega
    rw [h42]
    rfl

/-- C3 witness: a 9-character string is unchanged; a 50-character string is
truncated to 45 characters. -/
theorem c3_truncation_budget_witness :
    truncateString "BTCB/WBNB" 45 = "BTCB/WBNB" ∧
    (truncateString "aaaaaaaaaaaaaaaaaaaaaaaaaaaaaaaaaaaaaaaaaaaaaaaaaa" 45).length = 45 :=
  ⟨(c3_truncation_budget "BTCB/WBNB").1 (by decide),
   ((c3_truncation_budget "aaaaaaaaaaaaaaaaaaaaaaaaaaaaaaaaaaaaaaaaaaaaaaaaaa").2 (by decide)).2⟩

/-- C4: every emitted tag comes from a pair all four of whose token text
fields passed validation; a pair is rejected exactly when any of the four
fields is invalid, regardless of the other token; and a rejected pair is
dropped silently — the output is the same as if it had not been fetched, and
no error is raised (the transformer is a total function into a plain list). -/
theorem c4_only_valid_pairs_tagged (chainId : String) (pairs : List Pair) :
    (∀ tag ∈ transformPairsToTags chainId pairs,
      ∃ pair, pair ∈ pairs ∧
        containsInvalidValue pair.token0.name = false ∧
        containsInvalidValue pair.token0.symbol = false ∧
        containsInvalidValue pair.token1.name = false ∧
        containsInvalidValue pair.token1.symbol = false ∧
        tag = pairToTag chainId pair) ∧
    (∀ pair : Pair, pairRejected pair = true ↔
      (containsInvalidValue pair.token0.name = true ∨
       containsInvalidValue pair.token0.symbol = true ∨
       containsInvalidValue pair.token1.name = true ∨
       containsInvalidValue pair.token1.symbol = true)) ∧
    (∀ (pair : Pair) (rest : List Pair), pairRejected pair = true →
      transformPairsToTags chainId (pair :: rest) = transformPairsToTags chainId rest) := by
  refine ⟨?_, ?_, ?_⟩
  · intro tag htag
    rw [transformPairsToTags_eq] at htag
    obtain ⟨pair, hmem, rfl⟩ := List.mem_map.1 htag
    obtain ⟨hin, hval⟩ := List.mem_filter.1 hmem
    have hfalse : pairRejected pair = false := by
      cases h : pairRejected pair with
      | false => rfl
      | true => rw [h] at hval; exact absurd hval (by decide)
    obtain ⟨h1, h2, h3, h4⟩ := (pairRejected_false_iff pair).1 hfalse
    exact ⟨pair, hin, h1, h2, h3, h4, rfl⟩
  · intro pair
    simp [pairRejected]
    tauto
  · intro pair rest h
    rw [transformPairsToTags_eq, transformPairsToTags_eq, List.filter_cons]
    simp [h]

/-- C4 witness: the tag of a valid pair arises from that pair, and a pair
with a markup-bearing token0 name contributes nothing even though its token1
is valid. -/
theorem c4_only_valid_pairs_tagged_witness :
    (∃ pair, pair ∈ [sampleValidPair] ∧
      containsInvalidValue pair.token0.name = false ∧
      containsInvalidValue pair.token0.symbol = false ∧
      containsInvalidValue pair.token1.name = false ∧
      containsInvalidValue pair.token1.symbol = false ∧
      pairToTag "1" sampleValidPair = pairToTag "1" pair) ∧
    transformPairsToTags "1" [sampleInvalidPair] = transformPairsToTags "1" [] :=
  ⟨(c4_only_valid_pairs_tagged "1" [sampleValidPair]).1 (pairToTag "1" sampleValidPair) (by decide),
   (c4_only_valid_pairs_tagged "1" []).2.2 sampleInvalidPair [] (by decide)⟩

/-- C8: the transformer emits exactly one tag per valid pair in input order
(it is the order-preserving map of `pairToTag` over the valid pairs), the
contract address of the tag of any pair is `eip155:<chainId>:<poolId>`, and
for chain "1" and pool id "0xabc" that is exactly "eip155:1:0xabc". -/
theorem c8_one_tag_per_valid_pair (chainId : String) (pairs : List Pair) :
    transformPairsToTags chainId pairs =
      (pairs.filter (fun pair => !pairRejected pair)).map (pairToTag chainId) ∧
    (∀ pair : Pair, (pairToTag chainId pair).contractAddress =
      "eip155:" ++ chainId ++ ":" ++ pair.id) ∧
    (pairToTag "1" ⟨"0xabc", 0, ⟨"0xt0", "Token Zero", "T0"⟩,
        ⟨"0xt1", "Token One", "T1"⟩⟩).contractAddress = "eip155:1:0xabc" := by
  exact ⟨transformPairsToTags_eq chainId pairs, fun pair => rfl, by decide⟩

/-- C9: a GraphQL response payload carrying an `errors` field — even an empty
list — makes `fetchData` fail with the aggregate GraphQL failure and never
return the pairs, even when a valid `data.pairs` payload is present in the
same response. -/
theorem c9_errors_field_always_fails (errs : List GqlError) (dat : Option GraphQLData)
    (status ts : Nat) :
    fetchData (fun _ => .ok ⟨true, status, ⟨dat, some errs⟩⟩) ts =
      .error (.errorObj "GraphQL errors occurred: see logs for details.") ∧
    fetchData (fun _ => .ok ⟨true, status, ⟨some ⟨some [sampleValidPair]⟩, some []⟩⟩) ts =
      .error (.errorObj "GraphQL errors occurred: see logs for details.") := by
  exact ⟨rfl, rfl⟩

/-- C6: an identifier missing from the registry or non-numeric makes URL
resolution fail with the UnsupportedChain message, whose enumeration part
lists every valid identifier, and the whole call fails the same way for every
network — no network call is ever consulted. -/
theorem c6_unsupported_chain (chainId apiKey : String)
    (h : lookupSubgraph chainId = none ∨ jsNumberIsNaN chainId = true) :
    prepareUrl chainId apiKey = .error (unsupportedChainMessage chainId) ∧
    supportedChainIds = "1, 324, 1101, 8453, 42161, 59144" ∧
    ∀ (net : Nat → Except JsValue HttpResponse) (fuel : Nat),
      returnTags chainId apiKey net fuel =
        some (.error (.errorObj (unsupportedChainMessage chainId))) := by
  have hp : prepareUrl chainId apiKey = .error (unsupportedChainMessage chainId) := by
    rcases h with h | h
    · rw [prepareUrl, h]
    · rw [prepareUrl]
      cases hl : lookupSubgraph chainId with
      | none => rfl
      | some url =>
        dsimp only
        rw [if_pos h]
  exact ⟨hp, by decide, fun net fuel => by rw [returnTags, hp]⟩

/-- C6 witness: chain identifier "999" is not in the registry; resolution and
the whole call fail with the UnsupportedChain message without consulting the
network. -/
theorem c6_unsupported_chain_witness :
    prepareUrl "999" "k" = .error (unsupportedChainMessage "999") ∧
    returnTags "999" "k" nonErrorNet 0 =
      some (.error (.errorObj (unsupportedChainMessage "999"))) :=
  ⟨(c6_unsupported_chain "999" "k" (Or.inl (by decide))).1,
   (c6_unsupported_chain "999" "k" (Or.inl (by decide))).2.2 nonErrorNet 0⟩

/-- C10: an UnsupportedChain error from URL resolution reaches the caller of
returnTags unwrapped (the very message prepareUrl produced), whereas every
error arising inside the fetch loop reaches the caller freshly constructed:
prefixed with "Failed fetching data: " when the thrown value carries a string
message field, or with the fixed unknown-error message otherwise. -/
theorem c10_error_propagation (chainId apiKey : String)
    (net : Nat → Except JsValue HttpResponse) (fuel : Nat) :
    (∀ m, prepareUrl chainId apiKey = .error m →
      returnTags chainId apiKey net fuel = some (.error (.errorObj m))) ∧
    (∀ u e, prepareUrl chainId apiKey = .ok u →
      returnTags chainId apiKey net fuel = some (.error e) →
      ∃ cursor e0, fetchData net cursor = .error e0 ∧
        ((isError e0 = true ∧ ∃ m, e0 = .errorObj m ∧
            e = .errorObj ("Failed fetching data: " ++ jsErrorToString m)) ∨
         (isError e0 = false ∧
            e = .errorObj "An unknown error occurred during fetch operation."))) := by
  constructor
  · intro m hm
    rw [returnTags, hm]
  · intro u e hu he
    rw [returnTags, hu] at he
    obtain ⟨cursor, e0, hf, hw⟩ := returnTagsLoop_error chainId net fuel 0 [] [] e he
    refine ⟨cursor, e0, hf, ?_⟩
    cases e0 with
    | errorObj m => exact Or.inl ⟨rfl, m, rfl, by rw [hw]; rfl⟩
    | nonError => exact Or.inr ⟨rfl, by rw [hw]; rfl⟩

/-- C10 witness: the numeric but unregistered chain "2" fails unwrapped with
the UnsupportedChain message, while a loop-level rejection with no message
field surfaces as the fixed unknown-error message. -/
theorem c10_error_propagation_witness :
    returnTags "2" "k" nonErrorNet 3 =
      some (.error (.errorObj (unsupportedChainMessage "2"))) ∧
    (∃ cursor e0, fetchData nonErrorNet cursor = .error e0 ∧
      ((isError e0 = true ∧ ∃ m, e0 = .errorObj m ∧
          (JsValue.errorObj "An unknown error occurred during fetch operation.") =
            .errorObj ("Failed fetching data: " ++ jsErrorToString m)) ∨
       (isError e0 = false ∧
          (JsValue.errorObj "An unknown error occurred during fetch operation.") =
            .errorObj "An unknown error occurred during fetch operation."))) :=
  ⟨(c10_error_propagation "2" "k" nonErrorNet 3).1 (unsupportedChainMessage "2") rfl,
   (c10_error_propagation "1" "k" nonErrorNet 1).2
     (jsReplaceFirst mainnetUrl "[api-key]" (encodeURIComponent "k"))
     (.errorObj "An unknown error occurred during fetch operation.") rfl rfl⟩

theorem http_error_message_ne_empty (s : String) :
    ("HTTP error: " ++ s == "") = false := by
  rw [beq_eq_false_iff_ne]
  intro h
  have hl := congrArg String.length h
  rw [String.length_append] at hl
  have h12 : ("HTTP error: " : String).length = 12 := rfl
  have h0 : ("" : String).length = 0 := rfl
  rw [h12, h0] at hl
  omega

theorem wrapLoopError_http (status : Nat) :
    wrapLoopError (.errorObj ("HTTP error: " ++ toString status)) =
      .errorObj ("Failed fetching data: Error: HTTP error: " ++ toString status) := by
  show JsValue.errorObj
      ("Failed fetching data: " ++ jsErrorToString ("HTTP error: " ++ toString status)) = _
  rw [jsErrorToString, http_error_message_ne_empty]
  show JsValue.errorObj
      ("Failed fetching data: " ++ ("Error: " ++ ("HTTP error: " ++ toString status))) = _
  rw [← String.append_assoc, ← String.append_assoc]
  rfl

/-- The sample page has exactly 1000 raw pairs. -/
theorem samplePage_length : samplePage.length = 1000 :=
  List.length_replicate ..

/-- C5: when the second fetch fails at the transport level (HTTP status not
ok), the whole call fails with the wrapped HTTP error, even though page 1 was
fetched and transformed successfully: no tags reach the caller, there is no
partial-success return. -/
theorem c5_no_partial_success (chainId apiKey u : String)
    (net : Nat → Except JsValue HttpResponse) (fuel status : Nat)
    (p1 : List Pair) (body2 : GraphQLResponse)
    (hurl : prepareUrl chainId apiKey = .ok u)
    (h1 : fetchData net 0 = .ok p1) (hl1 : p1.length = 1000)
    (h2 : net (lastPairTimestamp p1 0) = .ok ⟨false, status, body2⟩)
    (hfuel : 2 ≤ fuel) :
    returnTags chainId apiKey net fuel =
      some (.error (.errorObj
        ("Failed fetching data: Error: HTTP error: " ++ toString status))) ∧
    ∀ tags trace, returnTags chainId apiKey net fuel ≠ some (.ok (tags, trace)) := by
  have hf2 : fetchData net (lastPairTimestamp p1 0) =
      .error (.errorObj ("HTTP error: " ++ toString status)) := by
    rw [fetchData, h2]
    rfl
  obtain ⟨k, rfl⟩ : ∃ k, fuel = k + 2 := ⟨fuel - 2, by omega⟩
  have hmain : returnTags chainId apiKey net (k + 2) =
      some (.error (.errorObj
        ("Failed fetching data: Error: HTTP error: " ++ toString status))) := by
    rw [returnTags, hurl]
    show returnTagsLoop chainId net (k + 1 + 1) 0 [] [] = _
    rw [returnTagsLoop, h1]
    dsimp only
    rw [if_pos hl1]
    show returnTagsLoop chainId net (k + 1) _ _ _ = _
    rw [returnTagsLoop, hf2]
    dsimp only
    rw [wrapLoopError_http]
  refine ⟨hmain, fun tags trace h => ?_⟩
  rw [hmain] at h
  simp at h

set_option maxRecDepth 100000 in
/-- C5 witness: page 1 is full, page 2 fails with HTTP status 500; the whole
call fails with the wrapped HTTP error. -/
theorem c5_no_partial_success_witness :
    returnTags "1" "apikey" failingSecondNet 2 =
      some (.error (.errorObj "Failed fetching data: Error: HTTP error: 500")) :=
  (c5_no_partial_success "1" "apikey"
      (jsReplaceFirst mainnetUrl "[api-key]" (encodeURIComponent "apikey"))
      failingSecondNet 2 500 samplePage ⟨none, none⟩ rfl rfl samplePage_length
      rfl (by omega)).1

/-- C2: in every completed run each page but the last held exactly 1000 raw
pairs and the last did not (the loop continues exactly after a full page); a
fetch sequence with pages of sizes 1000, 1000, 437 issues exactly 3 fetches
and returns the concatenation of the transformed valid pairs of the three
pages; a first page of size 0 issues exactly 1 fetch and returns an empty
result. -/
theorem c2_pagination_termination (chainId apiKey u : String)
    (net : Nat → Except JsValue HttpResponse) (fuel : Nat)
    (hurl : prepareUrl chainId apiKey = .ok u) :
    (∀ tags trace, returnTags chainId apiKey net fuel = some (.ok (tags, trace)) →
      continuesIff1000 trace) ∧
    (∀ p1 p2 p3 : List Pair,
      fetchData net 0 = .ok p1 → p1.length = 1000 →
      fetchData net (lastPairTimestamp p1 0) = .ok p2 → p2.length = 1000 →
      fetchData net (lastPairTimestamp p2 (lastPairTimestamp p1 0)) = .ok p3 →
      p3.length = 437 → 3 ≤ fuel →
      returnTags chainId apiKey net fuel =
        some (.ok
          (transformPairsToTags chainId p1 ++ transformPairsToTags chainId p2 ++
              transformPairsToTags chainId p3,
            [(0, p1), (lastPairTimestamp p1 0, p2),
              (lastPairTimestamp p2 (lastPairTimestamp p1 0), p3)]))) ∧
    (fetchData net 0 = .ok [] → 1 ≤ fuel →
      returnTags chainId apiKey net fuel = some (.ok ([], [(0, [])]))) := by
  refine ⟨?_, ?_, ?_⟩
  · intro tags trace h
    rw [returnTags, hurl] at h
    obtain ⟨tl, htr, hg, -⟩ := returnTagsLoop_ok chainId net fuel 0 [] [] tags trace h
    rw [List.nil_append] at htr
    rw [htr]
    exact goodTrace_continues 0 tl hg
  · intro p1 p2 p3 h1 hl1 h2 hl2 h3 hl3 hfuel
    obtain ⟨k, rfl⟩ : ∃ k, fuel = k + 3 := ⟨fuel - 3, by omega⟩
    rw [returnTags, hurl]
    show returnTagsLoop chainId net (k + 2 + 1) 0 [] [] = _
    rw [returnTagsLoop, h1]
    dsimp only
    rw [if_pos hl1]
    show returnTagsLoop chainId net (k + 1 + 1) _ _ _ = _
    rw [returnTagsLoop, h2]
    dsimp only
    rw [if_pos hl2]
    show returnTagsLoop chainId net (k + 1) _ _ _ = _
    rw [returnTagsLoop, h3]
    dsimp only
    rw [if_neg (by simp [hl3])]
    simp
  · intro h0 hfuel
    obtain ⟨k, rfl⟩ : ∃ k, fuel = k + 1 := ⟨fuel - 1, by omega⟩
    rw [returnTags, hurl, returnTagsLoop, h0]
    dsimp only
    rw [if_neg (by decide)]
    simp [transformPairsToTags]

/-- C2 witness: a network whose first page is empty yields one fetch and an
empty result. -/
theorem c2_pagination_termination_witness :
    returnTags "1" "key" emptyPageNet 1 = some (.ok ([], [(0, [])])) :=
  (c2_pagination_termination "1" "key"
      (jsReplaceFirst mainnetUrl "[api-key]" (encodeURIComponent "key"))
      emptyPageNet 1 rfl).2.2 rfl (by omega)

/-- C7: when a fetch returns a full page of 1000 raw pairs, the loop
continues and passes as next cursor the timestamp of the last raw pair of the
page — computed on the page before validation filtering, so a
fetched-but-rejected pair still advances the cursor; moreover along every
completed run each later fetch's cursor is the last raw timestamp of the
preceding page. -/
theorem c7_cursor_from_raw_page (chainId : String) (net : Nat → Except JsValue HttpResponse)
    (fuel c : Nat) (acc : List ContractTag) (tr : List (Nat × List Pair)) (pairs : List Pair)
    (hf : fetchData net c = .ok pairs) (hlen : pairs.length = 1000) :
    returnTagsLoop chainId net (fuel + 1) c acc tr =
      returnTagsLoop chainId net fuel (lastPairTimestamp pairs c)
        (acc ++ transformPairsToTags chainId pairs) (tr ++ [(c, pairs)]) ∧
    (∀ hne : pairs ≠ [], lastPairTimestamp pairs c = (pairs.getLast hne).timestamp) ∧
    (∀ (fuel2 : Nat) (tags : List ContractTag) (trace : List (Nat × List Pair)),
      returnTagsLoop chainId net fuel2 c acc tr = some (.ok (tags, trace)) →
      ∃ tl, trace = tr ++ tl ∧ cursorsChained tl) := by
  refine ⟨?_, ?_, ?_⟩
  · rw [returnTagsLoop, hf]
    dsimp only
    rw [if_pos hlen]
  · intro hne
    rw [lastPairTimestamp, List.getLast?_eq_getLast pairs hne]
  · intro fuel2 tags trace h
    obtain ⟨tl, htr, hg, -⟩ := returnTagsLoop_ok chainId net fuel2 c acc tr tags trace h
    exact ⟨tl, htr, goodTrace_chained c tl hg⟩

/-- C7 witness: after a full sample page fetched at cursor 0 the loop
continues at the last raw pair's timestamp with that page appended. -/
theorem c7_cursor_from_raw_page_witness :
    returnTagsLoop "1" fullPageNet 1 0 [] [] =
      returnTagsLoop "1" fullPageNet 0 (lastPairTimestamp samplePage 0)
        ([] ++ transformPairsToTags "1" samplePage) ([] ++ [(0, samplePage)]) :=
  (c7_cursor_from_raw_page "1" fullPageNet 0 0 [] [] samplePage rfl samplePage_length).1
